import Mathlib

/-!
Shallow embedding of the `google-photo-takeout-organizer` repository
(src/photo_filter.rs, src/exif.rs, src/path_generator.rs, src/organizer.rs).

Strings are modelled as `List Char` (`Str`), byte buffers as `List Nat`
(`ByteSeq`).  The EXIF library (crate `kamadak-exif`) and the filesystem
are external collaborators of the repository; they are modelled as
function parameters (`getField`, `readExif`, `findExisting`, `createDir`,
`writeFile`, `getFullPath`), exactly at the interface the source consumes
them.  `chrono::NaiveDate` is modelled by the `NaiveDate` structure with
explicit calendar validation mirroring chrono's proleptic Gregorian rules.
Rust's ASCII-relevant `to_uppercase`/`to_lowercase` are modelled
character-wise; all strings decided by the claims are ASCII.
-/

/-- Strings as lists of characters. -/
abbrev Str := List Char

/-- Raw image bytes; only ever consumed through abstract collaborators. -/
abbrev ByteSeq := List Nat

/-- `p` is a prefix of `s` (decision procedure used by the embedding). -/
def prefixMatch : Str → Str → Bool
  | [], _ => true
  | _ :: _, [] => false
  | p :: ps, c :: cs => p = c && prefixMatch ps cs

/-- `pat` occurs as a contiguous substring of `s` (models Rust `str::contains`). -/
def containsSub (pat : Str) : Str → Bool
  | [] => pat.isEmpty
  | c :: rest => prefixMatch pat (c :: rest) || containsSub pat rest

/-- Models Rust `str::to_uppercase` on the ASCII strings in play. -/
def upperStr (s : Str) : Str := s.map Char.toUpper

/-- Models Rust `str::to_lowercase` on the ASCII strings in play. -/
def lowerStr (s : Str) : Str := s.map Char.toLower

/-- Worker for `removeOcc`; the fuel argument (instantiated with the input
length, which every scan step strictly decreases) only makes the
recursion structural. -/
def removeOccAux (p0 : Char) (ps : Str) : Nat → Str → Str
  | 0, s => s
  | _ + 1, [] => []
  | fuel + 1, c :: rest =>
    if p0 = c && prefixMatch ps rest then removeOccAux p0 ps fuel (rest.drop ps.length)
    else c :: removeOccAux p0 ps fuel rest

/-- Models Rust `str::replace(pat, "")` with a nonempty pattern `p0 :: ps`:
a single left-to-right pass removing each non-overlapping occurrence. -/
def removeOcc (p0 : Char) (ps : Str) (s : Str) : Str :=
  removeOccAux p0 ps s.length s

/-- `edited_filename.replace("-edited","").replace("-EDITED","").replace("-Edited","")`
from `photo_filter.rs` / `organizer.rs`. -/
def strip_edited (name : Str) : Str :=
  removeOcc '-' ("Edited".data)
    (removeOcc '-' ("EDITED".data)
      (removeOcc '-' ("edited".data) name))

/-- EXIF tags the repository reads. -/
inductive Tag where
  | Software
  | Make
  | Model
  | DateTimeOriginal
deriving DecidableEq

namespace ExistingCollectionFilter

/-- `ExistingCollectionFilter::has_original_file`: strip the three spellings
of `-edited` and look the result up in the full source-filename set. -/
def has_original_file (all_filenames : List Str) (edited_filename : Str) : Bool :=
  all_filenames.contains (strip_edited edited_filename)

/-- `ExistingCollectionFilter::should_include` from `photo_filter.rs`.
`getField` models `get_exif_field` (EXIF container read plus field lookup,
`None` on any read failure), the one collaborator of this function. -/
def should_include (all_filenames : List Str)
    (getField : ByteSeq → Tag → Option Str)
    (filename : Str) (image_data : ByteSeq) : Bool :=
  let filename_upper := upperStr filename
  if containsSub ("-MIX".data) filename_upper then false
  else if containsSub ("-EDITED".data) filename_upper then
    ! has_original_file all_filenames filename
  else if (match getField image_data Tag.Software with
           | some software => containsSub ("lightroom".data) (lowerStr software)
           | none => false) then false
  else if (match getField image_data Tag.Make with
           | some mk => containsSub ("NIKON".data) (upperStr mk)
           | none => false) then false
  else if (match getField image_data Tag.Model with
           | some md => containsSub ("NIKON".data) (upperStr md)
           | none => false) then false
  else true

end ExistingCollectionFilter

/-- An EXIF field reader that always fails (e.g. bytes with no EXIF segment,
like the `[0xFF, 0xD8, 0xFF, 0xD9]` buffers in the repository's tests). -/
def gfNone : ByteSeq → Tag → Option Str := fun _ _ => none

/-- Modelled from the spec: the seven derivative markers named in §4.4. -/
def derivativeMarkers : List Str :=
  ["-MIX".data, "-EDITED".data, "-EFFECTS".data, "-ANIMATION".data,
   "-COLLAGE".data, "-SMILE".data, "-PANO".data]

/-- Modelled from the spec: the name contains some derivative marker
(case-insensitive substring match). -/
def containsAnyMarker (s : Str) : Bool :=
  derivativeMarkers.any (fun m => containsSub m (upperStr s))

/-- Worker for `removeOccCI`, fuel-structural like `removeOccAux`. -/
def removeOccCIAux (p0 : Char) (ps : Str) : Nat → Str → Str
  | 0, s => s
  | _ + 1, [] => []
  | fuel + 1, c :: rest =>
    if p0 = c.toUpper && prefixMatch ps (upperStr rest) then
      removeOccCIAux p0 ps fuel (rest.drop ps.length)
    else c :: removeOccCIAux p0 ps fuel rest

/-- Modelled from the spec: case-insensitive removal of every occurrence of
one (uppercase, nonempty) marker `p0 :: ps`. -/
def removeOccCI (p0 : Char) (ps : Str) (s : Str) : Str :=
  removeOccCIAux p0 ps s.length s

/-- Modelled from the spec: strip every occurrence of every derivative
marker (case-insensitively) from the candidate name. -/
def stripMarkersCI (s : Str) : Str :=
  derivativeMarkers.foldl
    (fun acc m =>
      match m with
      | [] => acc
      | p0 :: ps => removeOccCI p0 ps acc) s

/-- Case-insensitive `.gif` extension test (as the spec's rule 1 reads it). -/
def hasGifExt (s : Str) : Bool :=
  prefixMatch (".gif".data.reverse) ((lowerStr s).reverse)

/-- `chrono::NaiveDate` restricted to what the repository consumes:
a plain (year, month, day) triple, the year signed as chrono's `i32`.
Validity is enforced at the construction sites (`from_ymd_opt`, the
parse functions), as in chrono. -/
structure NaiveDate where
  year : Int
  month : Nat
  day : Nat
deriving DecidableEq, Repr

/-- Proleptic-Gregorian leap-year rule used by chrono. -/
def isLeapYear (y : Int) : Bool :=
  y % 4 = 0 && (!(y % 100 = 0) || y % 400 = 0)

/-- Days in a month of the proleptic Gregorian calendar. -/
def daysInMonth (y : Int) (m : Nat) : Nat :=
  if m = 2 then (if isLeapYear y then 29 else 28)
  else if m = 4 || m = 6 || m = 9 || m = 11 then 30
  else 31

/-- Calendar validity of a (year, month, day) triple, as checked by
`chrono::NaiveDate::from_ymd_opt`.  Chrono's year-magnitude cap
(`i32::MIN >> 13 ..= i32::MAX >> 13`) is enforced separately in
`parseYmdDashed`, the only construction site where it is reachable:
every other caller passes a year read from at most four digits. -/
def isValidYmd (y : Int) (m d : Nat) : Bool :=
  decide (1 ≤ m ∧ m ≤ 12 ∧ 1 ≤ d ∧ d ≤ daysInMonth y m)

/-- `chrono::NaiveDate::from_ymd_opt`. -/
def NaiveDate.from_ymd_opt (y : Int) (m d : Nat) : Option NaiveDate :=
  if isValidYmd y m d then some ⟨y, m, d⟩ else none

/-- Take at most `n` leading ASCII digits, returning them and the rest
(models chrono's bounded numeric-field scanner). -/
def takeDigitsUpTo : Nat → Str → Str × Str
  | 0, s => ([], s)
  | _ + 1, [] => ([], [])
  | n + 1, c :: rest =>
    if c.isDigit then
      let (d, r) := takeDigitsUpTo n rest
      (c :: d, r)
    else ([], c :: rest)

/-- Numeric value of a digit string. -/
def digitsToNat (s : Str) : Nat :=
  s.foldl (fun a c => a * 10 + (c.toNat - 48)) 0

/-- Chrono's `%Y` field scanner: an explicit `+`/`-` sign switches the
digit run to greedy (`scan::number(_, 1, usize::MAX)`); without a sign the
run is capped at the field width of four digits. -/
def parseYearField (s : Str) : Option (Int × Str) :=
  match s with
  | '+' :: r =>
    match r.span Char.isDigit with
    | ([], _) => none
    | (yd, rest) => some ((digitsToNat yd : Int), rest)
  | '-' :: r =>
    match r.span Char.isDigit with
    | ([], _) => none
    | (yd, rest) => some (-(digitsToNat yd : Int), rest)
  | _ =>
    match takeDigitsUpTo 4 s with
    | ([], _) => none
    | (yd, rest) => some ((digitsToNat yd : Int), rest)

/-- Models `chrono::NaiveDate::parse_from_str(s, "%Y-%m-%d")`: the `%Y`
field (optional sign, greedy digits when signed, at most four digits when
unsigned), a literal `-`, at most two digits for month and again for day,
the whole input consumed; then chrono's year range check
(`i32::MIN >> 13 = -262144` to `i32::MAX >> 13 = 262143`, applied by
`from_ymd_opt` when `Parsed` resolves the date) and calendar validation. -/
def parseYmdDashed (s : Str) : Option NaiveDate :=
  match parseYearField s with
  | none => none
  | some (y, rest) =>
    match rest with
    | '-' :: r1 =>
      match takeDigitsUpTo 2 r1 with
      | ([], _) => none
      | (md, '-' :: r2) =>
        match takeDigitsUpTo 2 r2 with
        | ([], _) => none
        | (dd, []) =>
          if -262144 ≤ y ∧ y ≤ 262143 then
            NaiveDate.from_ymd_opt y (digitsToNat md) (digitsToNat dd)
          else none
        | (_, _ :: _) => none
      | (_, _) => none
    | _ => none

/-- The EXIF container as the repository consumes it: a field lookup
(`exif::Exif::get_field(tag, In::PRIMARY)` followed by
`display_value().to_string()`). -/
structure Exif where
  getField : Tag → Option Str

namespace ExifDateExtractor

/-- `ExifDateExtractor::parse_exif_date_string` from `exif.rs`:
first whitespace-separated token, `:` replaced by `-`, parsed as
`%Y-%m-%d`; each failure is surfaced as its `context` message. -/
def parse_exif_date_string (exif_date_string : Str) : Except Str NaiveDate :=
  let afterSpaces := exif_date_string.dropWhile Char.isWhitespace
  if afterSpaces.isEmpty then .error ("Invalid EXIF date format".data)
  else
    let date_part := afterSpaces.takeWhile (fun c => ! c.isWhitespace)
    let normalized_date := date_part.map (fun c => if c = ':' then '-' else c)
    match parseYmdDashed normalized_date with
    | some d => .ok d
    | none => .error ("Failed to parse date from EXIF".data)

/-- `ExifDateExtractor::extract_date` from `exif.rs`.  `readExif` models
`exif::Reader::read_from_container` on the byte buffer; a read failure
is surfaced as the `context` message attached in `read_exif_from_image`. -/
def extract_date (readExif : ByteSeq → Except Str Exif)
    (_filename : Str) (image_data : ByteSeq) : Except Str NaiveDate :=
  match readExif image_data with
  | .error _ => .error ("Failed to read EXIF data from image".data)
  | .ok exif_data =>
    match exif_data.getField Tag.DateTimeOriginal with
    | none => .error ("No DateTimeOriginal field found in EXIF data".data)
    | some date_string => parse_exif_date_string date_string

end ExifDateExtractor

/-- Two-digit reading of a pair of digit characters. -/
def digit2 (a b : Char) : Nat := (a.toNat - 48) * 10 + (b.toNat - 48)

/-- Four-digit reading of a quadruple of digit characters. -/
def digit4 (a b c d : Char) : Nat :=
  ((a.toNat - 48) * 10 + (b.toNat - 48)) * 100 + digit2 c d

/-- Scan positions of `s` left to right and return the first position where
`f` yields a value (the regex crate's leftmost-match rule for the
fixed-shape patterns below). -/
def scan1 (f : Str → Option α) : Str → Option α
  | [] => f []
  | c :: rest =>
    match f (c :: rest) with
    | some v => some v
    | none => scan1 f rest

/-- The regex `(\d{4})-(\d{2})-(\d{2})` anchored at the start of `s`. -/
def dashedDateAt (s : Str) : Option (Nat × Nat × Nat) :=
  match s with
  | y1 :: y2 :: y3 :: y4 :: '-' :: m1 :: m2 :: '-' :: d1 :: d2 :: _ =>
    if y1.isDigit && y2.isDigit && y3.isDigit && y4.isDigit &&
       m1.isDigit && m2.isDigit && d1.isDigit && d2.isDigit then
      some (digit4 y1 y2 y3 y4, digit2 m1 m2, digit2 d1 d2)
    else none
  | _ => none

/-- The regex `(\d{8})_\d{6}` anchored at the start of `s`; the captured
8 digits are later split `%Y%m%d` (4+2+2), as chrono does. -/
def compactDatetimeAt (s : Str) : Option (Nat × Nat × Nat) :=
  match s with
  | a :: b :: c :: d :: e :: f :: g :: h :: '_' ::
      t1 :: t2 :: t3 :: t4 :: t5 :: t6 :: _ =>
    if a.isDigit && b.isDigit && c.isDigit && d.isDigit &&
       e.isDigit && f.isDigit && g.isDigit && h.isDigit &&
       t1.isDigit && t2.isDigit && t3.isDigit && t4.isDigit &&
       t5.isDigit && t6.isDigit then
      some (digit4 a b c d, digit2 e f, digit2 g h)
    else none
  | _ => none

/-- The regex `IMG_(\d{8})_\d{6}` anchored at the start of `s`. -/
def imgUnderscoreAt (s : Str) : Option (Nat × Nat × Nat) :=
  match s with
  | 'I' :: 'M' :: 'G' :: '_' :: rest => compactDatetimeAt rest
  | _ => none

/-- The regex `IMG-(\d{8})` anchored at the start of `s`. -/
def imgDashAt (s : Str) : Option (Nat × Nat × Nat) :=
  match s with
  | 'I' :: 'M' :: 'G' :: '-' ::
      a :: b :: c :: d :: e :: f :: g :: h :: _ =>
    if a.isDigit && b.isDigit && c.isDigit && d.isDigit &&
       e.isDigit && f.isDigit && g.isDigit && h.isDigit then
      some (digit4 a b c d, digit2 e f, digit2 g h)
    else none
  | _ => none

namespace FilenameBasedDateExtractor

/-- `FilenameBasedDateExtractor::try_parse_date_with_dashes`: first
`(\d{4})-(\d{2})-(\d{2})` match anywhere in the name, then
`from_ymd_opt` validation of that single candidate. -/
def try_parse_date_with_dashes (filename : Str) : Option NaiveDate :=
  match scan1 dashedDateAt filename with
  | some (y, m, d) => NaiveDate.from_ymd_opt y m d
  | none => none

/-- `FilenameBasedDateExtractor::try_parse_compact_datetime_pattern`:
first `(\d{8})_\d{6}` match, captured digits parsed `%Y%m%d`. -/
def try_parse_compact_datetime_pattern (filename : Str) : Option NaiveDate :=
  match scan1 compactDatetimeAt filename with
  | some (y, m, d) => NaiveDate.from_ymd_opt y m d
  | none => none

/-- `FilenameBasedDateExtractor::try_parse_img_underscore_pattern`:
first `IMG_(\d{8})_\d{6}` match, captured digits parsed `%Y%m%d`. -/
def try_parse_img_underscore_pattern (filename : Str) : Option NaiveDate :=
  match scan1 imgUnderscoreAt filename with
  | some (y, m, d) => NaiveDate.from_ymd_opt y m d
  | none => none

/-- `FilenameBasedDateExtractor::try_parse_img_dash_pattern`:
first `IMG-(\d{8})` match, captured digits parsed `%Y%m%d`. -/
def try_parse_img_dash_pattern (filename : Str) : Option NaiveDate :=
  match scan1 imgDashAt filename with
  | some (y, m, d) => NaiveDate.from_ymd_opt y m d
  | none => none

/-- `FilenameBasedDateExtractor::try_parse_patterns`: the `or_else` chain
of the four pattern functions, in source order. -/
def try_parse_patterns (filename : Str) : Option NaiveDate :=
  match try_parse_date_with_dashes filename with
  | some d => some d
  | none =>
    match try_parse_compact_datetime_pattern filename with
    | some d => some d
    | none =>
      match try_parse_img_underscore_pattern filename with
      | some d => some d
      | none => try_parse_img_dash_pattern filename

/-- `FilenameBasedDateExtractor::extract_date` (the `DateExtractor` impl). -/
def extract_date (filename : Str) (_image_data : ByteSeq) : Except Str NaiveDate :=
  match try_parse_patterns filename with
  | some d => .ok d
  | none => .error ("Failed to extract date from filename".data)

end FilenameBasedDateExtractor

/-- `CompositeDateExtractor::extract_date`: EXIF first, `or_else` the
filename extractor. -/
def CompositeDateExtractor.extract_date (readExif : ByteSeq → Except Str Exif)
    (filename : Str) (image_data : ByteSeq) : Except Str NaiveDate :=
  match ExifDateExtractor.extract_date readExif filename image_data with
  | .ok d => .ok d
  | .error _ => FilenameBasedDateExtractor.extract_date filename image_data

/-- Modelled from the spec: §4.2's pattern 1, a literal `Screenshot_`
immediately followed by a dashed date, anchored at the start of `s`. -/
def screenshotDateAt (s : Str) : Option (Nat × Nat × Nat) :=
  match s with
  | 'S' :: 'c' :: 'r' :: 'e' :: 'e' :: 'n' :: 's' :: 'h' :: 'o' :: 't' :: '_' :: rest =>
    dashedDateAt rest
  | _ => none

/-- Modelled from the spec: §4.2's ordered five-pattern list, the
`Screenshot_` pattern first, then the same four patterns as the source. -/
def specTryPatterns (filename : Str) : Option NaiveDate :=
  match (match scan1 screenshotDateAt filename with
         | some (y, m, d) => NaiveDate.from_ymd_opt y m d
         | none => none) with
  | some d => some d
  | none => FilenameBasedDateExtractor.try_parse_patterns filename

/-- Decimal rendering of a natural number as a character list. -/
def natDigits (n : Nat) : Str := (Nat.repr n).data

/-- chrono `%m` / `%d` formatting: two zero-padded digits. -/
def formatTwo (n : Nat) : Str :=
  if n < 10 then '0' :: natDigits n else natDigits n

/-- chrono `%Y` formatting: the year zero-padded to four digits, with a
leading minus sign for negative years. -/
def formatYear (y : Int) : Str :=
  if y < 0 then
    '-' :: (List.replicate (4 - (natDigits y.natAbs).length) '0' ++ natDigits y.natAbs)
  else List.replicate (4 - (natDigits y.toNat).length) '0' ++ natDigits y.toNat

/-- `date.format("%Y-%m-%d").to_string()` in `generate_path`. -/
def fullDateStr (date : NaiveDate) : Str :=
  formatYear date.year ++ '-' :: (formatTwo date.month ++ '-' :: formatTwo date.day)

/-- Models Rust `Path::join` for the relative components in play: an
absolute right-hand side replaces, otherwise the components are
separated by `/`. -/
def pathJoin (a b : Str) : Str :=
  if prefixMatch ("/".data) b then b else a ++ '/' :: b

namespace PathGenerator

/-- `PathGenerator::generate_path` from `path_generator.rs`.
`findExisting` models the `find_existing_date_directory` capability of
the file-writer collaborator. -/
def generate_path (findExisting : Str → Str → Option Str)
    (date : NaiveDate) (filename : Str) : Str :=
  let year := formatYear date.year
  let full_date := fullDateStr date
  let date_dir :=
    match findExisting year full_date with
    | some existing_dir => existing_dir
    | none => full_date
  pathJoin (pathJoin year date_dir) filename

end PathGenerator

/-- A scan collaborator that never finds an existing date directory. -/
def findNone : Str → Str → Option Str := fun _ _ => none

/-- `ZipEntry` from `zip_image_reader.rs`. -/
structure ZipEntry where
  name : Str
  data : ByteSeq
deriving DecidableEq

/-- `OrganizeResult` from `organizer.rs`. -/
structure OrganizeResult where
  total_files : Nat
  organized_files : Nat
  skipped_files : Nat
  errors : List Str
deriving DecidableEq

/-- Models Rust `Path::parent` on the nonempty relative paths in play:
everything before the final `/`-separated segment. -/
def parentDir (s : Str) : Option Str :=
  if s.isEmpty then none
  else some (((s.reverse.dropWhile (fun c => ! (c = '/'))).drop 1).reverse)

namespace PhotoOrganizer

/-- `PhotoOrganizer::process_entry` (with `ensure_parent_directory_exists`
inlined) from `organizer.rs`.  The date extractor and the file-writer
operations are the collaborator parameters; each failure is surfaced as
the `context` message attached at that call site. -/
def process_entry (extractDate : Str → ByteSeq → Except Str NaiveDate)
    (findExisting : Str → Str → Option Str)
    (createDir : Str → Except Str Unit)
    (writeFile : Str → ByteSeq → Except Str Unit)
    (getFullPath : Str → Str)
    (entry : ZipEntry) : Except Str Str :=
  match extractDate entry.name entry.data with
  | .error _ => .error ("Failed to extract date".data)
  | .ok date =>
    let target_path := PathGenerator.generate_path findExisting date entry.name
    match (match parentDir target_path with
           | some parent => createDir parent
           | none => .ok ()) with
    | .error _ => .error ("Failed to create directory".data)
    | .ok _ =>
      match writeFile target_path entry.data with
      | .error _ => .error ("Failed to write file".data)
      | .ok _ => .ok (getFullPath target_path)

/-- The `for entry in entries` loop of `PhotoOrganizer::organize`.
`flt` is `photo_filter.should_include`; `proc` is the outcome of
`process_entry`, threaded through an abstract collaborator state `σ`
(covering any stateful filesystem behavior). -/
def organizeGo (flt : ZipEntry → Bool)
    (proc : σ → ZipEntry → Except Str Str × σ) :
    σ → List ZipEntry → Nat → Nat → List Str → Nat × Nat × List Str
  | _, [], organized, skipped, errors => (organized, skipped, errors)
  | s, entry :: rest, organized, skipped, errors =>
    if flt entry then
      match proc s entry with
      | (.ok _, s') => organizeGo flt proc s' rest (organized + 1) skipped errors
      | (.error e, s') =>
        organizeGo flt proc s' rest organized (skipped + 1)
          (errors ++ [entry.name ++ ':' :: ' ' :: e])
    else organizeGo flt proc s rest organized (skipped + 1) errors

/-- `PhotoOrganizer::organize` from `organizer.rs`: enumeration failure is
the only propagated error (with its `context` message); otherwise every
entry is tallied as organized or skipped. -/
def organize (readResult : Except Str (List ZipEntry))
    (flt : ZipEntry → Bool)
    (proc : σ → ZipEntry → Except Str Str × σ) (s0 : σ) :
    Except Str OrganizeResult :=
  match readResult with
  | .error _ => .error ("Failed to read ZIP entries".data)
  | .ok entries =>
    let res := organizeGo flt proc s0 entries 0 0 []
    .ok ⟨entries.length, res.1, res.2.1, res.2.2⟩

/-- The `orphans.join("\n")` part of `validate_no_orphaned_edits`. -/
def joinNl : List Str → Str
  | [] => []
  | [x] => x
  | x :: y :: ys => x ++ '\n' :: joinNl (y :: ys)

/-- The `anyhow::bail!` message of `validate_no_orphaned_edits`. -/
def orphanMsg (orphans : List Str) : Str :=
  ("Found ".data) ++ natDigits orphans.length ++
    (" -edited file(s) without originals:\n".data) ++ joinNl orphans ++
    ("\n\nTo preserve these photos, use --no-filter to organize all files.".data)

/-- `PhotoOrganizer::validate_no_orphaned_edits` from `organizer.rs`,
given the already-read entry list. -/
def validate_no_orphaned_edits (entries : List ZipEntry) : Except Str Unit :=
  let edited_files := entries.filter
    (fun e => containsSub ("-EDITED".data) (upperStr e.name))
  let orphans := (edited_files.filter
    (fun e => ! entries.any (fun e2 => e2.name == strip_edited e.name))).map
      (fun e => e.name)
  if orphans.isEmpty then .ok () else .error (orphanMsg orphans)

end PhotoOrganizer

/-- Modelled from the spec: the last path segment of an entry name
(§3's `<basename>`, "nested source directories are stripped"). -/
def lastSegment (s : Str) : Str :=
  (s.reverse.takeWhile (fun c => ! (c = '/'))).reverse

/-- C1 counterexample: `photo-MIX.jpg` carries the `-MIX` derivative marker
and its marker-stripped name `photo.jpg` is absent from the source set
(which holds only the candidate itself), so the claim mandates inclusion;
the filter nevertheless excludes it (`-MIX` is rejected unconditionally in
`should_include`). -/
theorem mix_marker_excluded_despite_absent_original :
    containsAnyMarker ("photo-MIX.jpg".data) = true ∧
    (["photo-MIX.jpg".data] : List Str).contains
      (stripMarkersCI ("photo-MIX.jpg".data)) = false ∧
    ExistingCollectionFilter.should_include ["photo-MIX.jpg".data] gfNone
      ("photo-MIX.jpg".data) [] = false := by
  decide

/-- C1 (amended): the filter recognizes only two markers.  A name containing
`-MIX` (case-insensitive) is always excluded; a name containing `-EDITED`
(case-insensitive) and no `-MIX` is excluded exactly when the name with the
occurrences of the three spellings `-edited`, `-EDITED`, `-Edited` removed
is present in the source-filename set; a name with neither marker (and no
Lightroom/Nikon metadata) is included, whatever the other five spec markers
or the source set say. -/
theorem should_include_marker_rules (all : List Str)
    (gf : ByteSeq → Tag → Option Str) (filename : Str) (data : ByteSeq) :
    (containsSub ("-MIX".data) (upperStr filename) = true →
      ExistingCollectionFilter.should_include all gf filename data = false)
    ∧ (containsSub ("-MIX".data) (upperStr filename) = false →
       containsSub ("-EDITED".data) (upperStr filename) = true →
      (ExistingCollectionFilter.should_include all gf filename data = false ↔
        all.contains (strip_edited filename) = true))
    ∧ (containsSub ("-MIX".data) (upperStr filename) = false →
       containsSub ("-EDITED".data) (upperStr filename) = false →
       gf data Tag.Software = none → gf data Tag.Make = none →
       gf data Tag.Model = none →
      ExistingCollectionFilter.should_include all gf filename data = true) := by
  refine ⟨fun h1 => ?_, fun h1 h2 => ?_, fun h1 h2 hs hmk hmd => ?_⟩
  · simp [ExistingCollectionFilter.should_include, h1]
  · simp [ExistingCollectionFilter.should_include, h1, h2,
      ExistingCollectionFilter.has_original_file]
  · simp [ExistingCollectionFilter.should_include, h1, h2, hs, hmk, hmd]

/-- C1 witness: the three marker rules at concrete inputs: `x-MIX.jpg` is
excluded though `x.jpg` is in the set; `a-edited.jpg` is excluded exactly
when `a.jpg` is in the set (here it is); `b-PANO.jpg` is included although
its stripped original `b.jpg` is in the set. -/
theorem should_include_marker_rules_witness :
    ExistingCollectionFilter.should_include ["x.jpg".data] gfNone ("x-MIX.jpg".data) [] = false
    ∧ (ExistingCollectionFilter.should_include ["a.jpg".data] gfNone ("a-edited.jpg".data) [] = false ↔
        (["a.jpg".data] : List Str).contains (strip_edited ("a-edited.jpg".data)) = true)
    ∧ ExistingCollectionFilter.should_include ["b.jpg".data] gfNone ("b-PANO.jpg".data) [] = true := by
  refine ⟨(should_include_marker_rules ["x.jpg".data] gfNone ("x-MIX.jpg".data) []).1 (by decide),
    (should_include_marker_rules ["a.jpg".data] gfNone ("a-edited.jpg".data) []).2.1
      (by decide) (by decide),
    (should_include_marker_rules ["b.jpg".data] gfNone ("b-PANO.jpg".data) []).2.2
      (by decide) (by decide) rfl rfl rfl⟩

/-- C2 counterexample: `anim.gif` has the `.gif` extension, yet the filter
includes it (there is no `.gif` rule in `should_include`). -/
theorem gif_not_excluded :
    hasGifExt ("anim.gif".data) = true ∧
    ExistingCollectionFilter.should_include ["anim.gif".data] gfNone
      ("anim.gif".data) [] = true := by
  decide

/-- C2 (amended): the filter gives `.gif` files no special treatment: a
`.gif` name without the `-MIX`/`-EDITED` markers and without
Lightroom/Nikon metadata is included like any other file. -/
theorem should_include_no_gif_rule (all : List Str)
    (gf : ByteSeq → Tag → Option Str) (filename : Str) (data : ByteSeq)
    (hgif : hasGifExt filename = true)
    (h1 : containsSub ("-MIX".data) (upperStr filename) = false)
    (h2 : containsSub ("-EDITED".data) (upperStr filename) = false)
    (hs : gf data Tag.Software = none) (hmk : gf data Tag.Make = none)
    (hmd : gf data Tag.Model = none) :
    ExistingCollectionFilter.should_include all gf filename data = true := by
  simp [ExistingCollectionFilter.should_include, h1, h2, hs, hmk, hmd]

/-- C2 witness: a concrete `.gif` that the filter includes. -/
theorem should_include_no_gif_rule_witness :
    ExistingCollectionFilter.should_include ["other.jpg".data] gfNone ("20151115-anim.GIF".data) [] = true :=
  should_include_no_gif_rule ["other.jpg".data] gfNone ("20151115-anim.GIF".data) []
    (by decide) (by decide) (by decide) rfl rfl rfl

/-- C3: the composite resolver returns the metadata extractor's date
whenever that extractor succeeds (whatever the filename says), and the
filename extractor's exact outcome whenever it fails; no other outcome
exists. -/
theorem composite_extractor_metadata_precedence
    (readExif : ByteSeq → Except Str Exif) (filename : Str) (image_data : ByteSeq) :
    (∀ d, ExifDateExtractor.extract_date readExif filename image_data = .ok d →
      CompositeDateExtractor.extract_date readExif filename image_data = .ok d)
    ∧ (∀ e, ExifDateExtractor.extract_date readExif filename image_data = .error e →
      CompositeDateExtractor.extract_date readExif filename image_data =
        FilenameBasedDateExtractor.extract_date filename image_data) := by
  refine ⟨fun d h => ?_, fun e h => ?_⟩
  · simp [CompositeDateExtractor.extract_date, h]
  · simp [CompositeDateExtractor.extract_date, h]

/-- A metadata reader returning a container whose `DateTimeOriginal` field
reads `2012:10:06 13:09:32` (the repository's test fixture). -/
def readExifFixture : ByteSeq → Except Str Exif := fun _ =>
  .ok ⟨fun t => if t = Tag.DateTimeOriginal then some ("2012:10:06 13:09:32".data) else none⟩

/-- A metadata reader that always fails to recognize the container. -/
def readExifFail : ByteSeq → Except Str Exif := fun _ => .error ("no exif".data)

/-- C3 witness: with readable metadata saying 2012-10-06, the composite
result is 2012-10-06 even though the filename says 2015-01-30; with
unreadable metadata, the composite result is the filename's 2013-04-19. -/
theorem composite_extractor_metadata_precedence_witness :
    CompositeDateExtractor.extract_date readExifFixture ("IMG_20150130_000000.jpg".data) [] =
      .ok ⟨2012, 10, 6⟩
    ∧ CompositeDateExtractor.extract_date readExifFail ("Screenshot_2013-04-19-19-46-43.png".data) [] =
      .ok ⟨2013, 4, 19⟩ := by
  refine ⟨(composite_extractor_metadata_precedence readExifFixture
      ("IMG_20150130_000000.jpg".data) []).1 ⟨2012, 10, 6⟩ rfl, ?_⟩
  have h := (composite_extractor_metadata_precedence readExifFail
      ("Screenshot_2013-04-19-19-46-43.png".data) []).2
    ("Failed to read EXIF data from image".data) rfl
  exact h.trans rfl

/-- `formatTwo` always renders two digits below 100. -/
theorem formatTwo_length : ∀ n < 100, (formatTwo n).length = 2 := by decide

/-- No Gregorian month has more than 31 days. -/
theorem daysInMonth_le (y : Int) (m : Nat) : daysInMonth y m ≤ 31 := by
  unfold daysInMonth
  split
  · split <;> decide
  · split <;> decide

/-- C7: for a valid date the month and day render as exactly two zero-padded
digits, and the generated path reuses verbatim any directory name the scan
collaborator reports for the `<year>/<year-month-day>` prefix, falling back
to the plain date string otherwise.  `generate_path` is a pure function of
`(date, filename, scan result)`, so determinism is immediate from these
equations. -/
theorem generate_path_determined_and_padded
    (findExisting : Str → Str → Option Str) (date : NaiveDate) (filename : Str)
    (hv : isValidYmd date.year date.month date.day = true) :
    (formatTwo date.month).length = 2 ∧ (formatTwo date.day).length = 2
    ∧ (∀ dir, findExisting (formatYear date.year) (fullDateStr date) = some dir →
        PathGenerator.generate_path findExisting date filename =
          pathJoin (pathJoin (formatYear date.year) dir) filename)
    ∧ (findExisting (formatYear date.year) (fullDateStr date) = none →
        PathGenerator.generate_path findExisting date filename =
          pathJoin (pathJoin (formatYear date.year) (fullDateStr date)) filename) := by
  obtain ⟨h1, h2, h3, h4⟩ := of_decide_eq_true hv
  refine ⟨?_, ?_, fun dir h => ?_, fun h => ?_⟩
  · exact formatTwo_length _ (lt_of_le_of_lt h2 (by norm_num))
  · exact formatTwo_length _ (lt_of_le_of_lt (h4.trans (daysInMonth_le _ _)) (by norm_num))
  · simp [PathGenerator.generate_path, h]
  · simp [PathGenerator.generate_path, h]

/-- C7 witness: 2024-03-07 renders zero-padded as `2024/2024-03-07/…`, and a
pre-existing `2025-10-28_special_event` directory is reused verbatim. -/
theorem generate_path_determined_and_padded_witness :
    (formatTwo 3).length = 2
    ∧ PathGenerator.generate_path findNone ⟨2024, 3, 7⟩ ("test.jpg".data) =
        "2024/2024-03-07/test.jpg".data
    ∧ PathGenerator.generate_path (fun _ _ => some ("2025-10-28_special_event".data))
        ⟨2025, 10, 28⟩ ("photo.jpg".data) =
        "2025/2025-10-28_special_event/photo.jpg".data := by
  have h1 := generate_path_determined_and_padded findNone ⟨2024, 3, 7⟩
    ("test.jpg".data) (by decide)
  have h2 := generate_path_determined_and_padded
    (fun _ _ => some ("2025-10-28_special_event".data)) ⟨2025, 10, 28⟩
    ("photo.jpg".data) (by decide)
  exact ⟨h1.1, (h1.2.2.2 rfl).trans (by decide), (h2.2.2.1 _ rfl).trans (by decide)⟩

/-- C5 counterexample: the entry named `a/b.jpg` (a nested source name) is
written to `2024/2024-01-05/a/b.jpg` — the whole name is appended — while
the claimed form with the basename stripped would be `2024/2024-01-05/b.jpg`. -/
theorem nested_entry_name_not_stripped :
    PhotoOrganizer.process_entry (fun _ _ => .ok ⟨2024, 1, 5⟩) findNone
      (fun _ => .ok ()) (fun _ _ => .ok ()) id ⟨"a/b.jpg".data, []⟩ =
      .ok ("2024/2024-01-05/a/b.jpg".data)
    ∧ pathJoin (pathJoin (formatYear 2024) (fullDateStr ⟨2024, 1, 5⟩))
        (lastSegment ("a/b.jpg".data)) = "2024/2024-01-05/b.jpg".data :=
  ⟨rfl, rfl⟩

/-- C5 (amended): when date extraction and the writes succeed, the organized
entry lands at `<year>/<date-dir>/<entry name>` with the entry's FULL source
name appended unchanged — nested directory segments are not stripped. -/
theorem process_entry_target_path
    (extractDate : Str → ByteSeq → Except Str NaiveDate)
    (findExisting : Str → Str → Option Str)
    (createDir : Str → Except Str Unit)
    (writeFile : Str → ByteSeq → Except Str Unit)
    (getFullPath : Str → Str) (entry : ZipEntry) (date : NaiveDate)
    (hd : extractDate entry.name entry.data = .ok date)
    (hc : ∀ p, createDir p = .ok ())
    (hw : ∀ p b, writeFile p b = .ok ()) :
    PhotoOrganizer.process_entry extractDate findExisting createDir writeFile
      getFullPath entry =
      .ok (getFullPath (PathGenerator.generate_path findExisting date entry.name)) := by
  unfold PhotoOrganizer.process_entry
  rw [hd]
  cases hp : parentDir (PathGenerator.generate_path findExisting date entry.name) with
  | none => simp [hp, hw]
  | some p => simp [hp, hc, hw]

/-- C5 witness: a nested entry name `nested/photo.jpg` kept whole under the
date directory. -/
theorem process_entry_target_path_witness :
    PhotoOrganizer.process_entry (fun _ _ => .ok ⟨2024, 1, 5⟩) findNone
      (fun _ => .ok ()) (fun _ _ => .ok ()) (fun p => "/out/".data ++ p)
      ⟨"nested/photo.jpg".data, []⟩ =
      .ok ("/out/2024/2024-01-05/nested/photo.jpg".data) :=
  (process_entry_target_path (fun _ _ => .ok ⟨2024, 1, 5⟩) findNone
    (fun _ => .ok ()) (fun _ _ => .ok ()) (fun p => "/out/".data ++ p)
    ⟨"nested/photo.jpg".data, []⟩ ⟨2024, 1, 5⟩ rfl (fun _ => rfl)
    (fun _ _ => rfl)).trans rfl

/-- Counting invariant of the organizer loop: each entry adds one to exactly
one of the organized/skipped tallies, and an error message is only ever
appended together with a skip. -/
theorem organizeGo_counts {σ : Type} (flt : ZipEntry → Bool)
    (proc : σ → ZipEntry → Except Str Str × σ) :
    ∀ (l : List ZipEntry) (s : σ) (org skip : Nat) (errs : List Str),
      (PhotoOrganizer.organizeGo flt proc s l org skip errs).1 +
        (PhotoOrganizer.organizeGo flt proc s l org skip errs).2.1 =
          org + skip + l.length
      ∧ (PhotoOrganizer.organizeGo flt proc s l org skip errs).2.2.length + skip ≤
          errs.length + (PhotoOrganizer.organizeGo flt proc s l org skip errs).2.1 := by
  intro l
  induction l with
  | nil => intro s org skip errs; simp [PhotoOrganizer.organizeGo]
  | cons e rest ih =>
    intro s org skip errs
    by_cases hf : flt e
    · rcases hp : proc s e with ⟨res, s'⟩
      cases res with
      | ok v =>
        have h := ih s' (org + 1) skip errs
        simp only [PhotoOrganizer.organizeGo, hf, hp, if_true, List.length_cons]
        omega
      | error msg =>
        have h := ih s' org (skip + 1) (errs ++ [e.name ++ ':' :: ' ' :: msg])
        simp only [PhotoOrganizer.organizeGo, hf, hp, if_true, List.length_cons]
        simp only [List.length_append, List.length_cons, List.length_nil] at h
        omega
    · have h := ih s org (skip + 1) errs
      simp only [PhotoOrganizer.organizeGo, hf, if_false, Bool.false_eq_true,
        List.length_cons]
      omega

/-- C4: whenever `organize` returns a result — for any filter, extractor and
(arbitrarily stateful) writer behavior — the counters satisfy
`total_files = organized_files + skipped_files`, and the error list never
outgrows the skip count (filtered-out entries are skipped silently). -/
theorem organize_count_invariant {σ : Type} (readResult : Except Str (List ZipEntry))
    (flt : ZipEntry → Bool) (proc : σ → ZipEntry → Except Str Str × σ) (s0 : σ)
    (r : OrganizeResult)
    (h : PhotoOrganizer.organize readResult flt proc s0 = .ok r) :
    r.total_files = r.organized_files + r.skipped_files ∧
      r.errors.length ≤ r.skipped_files := by
  cases readResult with
  | error e => simp [PhotoOrganizer.organize] at h
  | ok entries =>
    have hc := organizeGo_counts flt proc entries s0 0 0 []
    simp only [PhotoOrganizer.organize, Except.ok.injEq] at h
    subst h
    simp only [List.length_nil, Nat.zero_add, Nat.add_zero] at hc
    exact ⟨hc.1.symm, hc.2⟩

/-- C4 witness: a two-entry run in which one entry is filtered out (skip, no
error) and the other fails (skip plus error): 2 = 0 + 2 and 1 ≤ 2. -/
theorem organize_count_invariant_witness :
    (⟨2, 0, 2, ["b.jpg: boom".data]⟩ : OrganizeResult).total_files =
      (⟨2, 0, 2, ["b.jpg: boom".data]⟩ : OrganizeResult).organized_files +
      (⟨2, 0, 2, ["b.jpg: boom".data]⟩ : OrganizeResult).skipped_files ∧
    (⟨2, 0, 2, ["b.jpg: boom".data]⟩ : OrganizeResult).errors.length ≤
      (⟨2, 0, 2, ["b.jpg: boom".data]⟩ : OrganizeResult).skipped_files :=
  organize_count_invariant (σ := Unit)
    (.ok [⟨"a.jpg".data, []⟩, ⟨"b.jpg".data, []⟩])
    (fun e => !(e.name == "a.jpg".data))
    (fun s _ => (.error ("boom".data), s)) ()
    ⟨2, 0, 2, ["b.jpg: boom".data]⟩ rfl

/-- Every message the organizer loop appends comes from one of its entries
failing in `proc`, formatted `<name>: <reason>`. -/
theorem organizeGo_errors_shape {σ : Type} (flt : ZipEntry → Bool)
    (proc : σ → ZipEntry → Except Str Str × σ) :
    ∀ (l : List ZipEntry) (s : σ) (org skip : Nat) (errs : List Str) (m : Str),
      m ∈ (PhotoOrganizer.organizeGo flt proc s l org skip errs).2.2 →
      m ∈ errs ∨ ∃ e, e ∈ l ∧ ∃ reason,
        m = e.name ++ ':' :: ' ' :: reason ∧ ∃ s', (proc s' e).1 = .error reason := by
  intro l
  induction l with
  | nil => intro s org skip errs m hm; exact Or.inl (by simpa [PhotoOrganizer.organizeGo] using hm)
  | cons e rest ih =>
    intro s org skip errs m hm
    by_cases hf : flt e
    · rcases hp : proc s e with ⟨res, s'⟩
      cases res with
      | ok v =>
        simp only [PhotoOrganizer.organizeGo, hf, hp, if_true] at hm
        rcases ih s' (org + 1) skip errs m hm with h | ⟨e', he', rest'⟩
        · exact Or.inl h
        · exact Or.inr ⟨e', List.mem_cons_of_mem _ he', rest'⟩
      | error msg =>
        simp only [PhotoOrganizer.organizeGo, hf, hp, if_true] at hm
        rcases ih s' org (skip + 1) (errs ++ [e.name ++ ':' :: ' ' :: msg]) m hm with h | ⟨e', he', rest'⟩
        · rcases List.mem_append.mp h with h' | h'
          · exact Or.inl h'
          · refine Or.inr ⟨e, List.mem_cons_self _ _, msg, ?_, s, by rw [hp]⟩
            simpa using h'
        · exact Or.inr ⟨e', List.mem_cons_of_mem _ he', rest'⟩
    · simp only [PhotoOrganizer.organizeGo, hf, if_false, Bool.false_eq_true] at hm
      rcases ih s org (skip + 1) errs m hm with h | ⟨e', he', rest'⟩
      · exact Or.inl h
      · exact Or.inr ⟨e', List.mem_cons_of_mem _ he', rest'⟩

/-- C6: once the entry list is readable, `organize` always returns a result —
a per-entry failure never aborts the run — and every recorded message stems
from some entry whose processing failed, formatted `<name>: <reason>`; only
an enumeration failure propagates, as the top-level
`Failed to read ZIP entries` error. -/
theorem organize_error_isolation {σ : Type} (readResult : Except Str (List ZipEntry))
    (flt : ZipEntry → Bool) (proc : σ → ZipEntry → Except Str Str × σ) (s0 : σ) :
    (∀ entries, readResult = .ok entries →
      ∃ r, PhotoOrganizer.organize readResult flt proc s0 = .ok r ∧
        ∀ m ∈ r.errors, ∃ e, e ∈ entries ∧ ∃ reason,
          m = e.name ++ ':' :: ' ' :: reason ∧ ∃ s', (proc s' e).1 = .error reason)
    ∧ (∀ err, readResult = .error err →
        PhotoOrganizer.organize readResult flt proc s0 =
          .error ("Failed to read ZIP entries".data)) := by
  constructor
  · intro entries h
    subst h
    refine ⟨_, rfl, fun m hm => ?_⟩
    exact (organizeGo_errors_shape flt proc entries s0 0 0 [] m hm).resolve_left
      (List.not_mem_nil m)
  · intro err h
    subst h
    rfl

/-- C6 witness: an unreadable source is the one fatal outcome, surfaced as
the top-level enumeration error. -/
theorem organize_error_isolation_witness :
    PhotoOrganizer.organize (σ := Unit) (.error ("bad archive".data))
      (fun _ => true) (fun s _ => (.ok [], s)) () =
      .error ("Failed to read ZIP entries".data) :=
  (organize_error_isolation (σ := Unit) (.error ("bad archive".data))
    (fun _ => true) (fun s _ => (.ok [], s)) ()).2 ("bad archive".data) rfl

/-- C8 counterexample: on `2020-01-02_Screenshot_2021-03-04.png` the spec's
ordered list (Screenshot pattern first) selects 2021-03-04, but the
extractor returns 2020-01-02 — the source has no separate Screenshot
pattern, and its generic dashed pattern takes the first dashed date. -/
theorem screenshot_pattern_order_counterexample :
    FilenameBasedDateExtractor.extract_date
      ("2020-01-02_Screenshot_2021-03-04.png".data) [] = .ok ⟨2020, 1, 2⟩
    ∧ specTryPatterns ("2020-01-02_Screenshot_2021-03-04.png".data) =
        some ⟨2021, 3, 4⟩ :=
  ⟨rfl, rfl⟩

/-- C8 (amended): the extractor tries, in order, generic dashed
`YYYY-MM-DD` (first occurrence in the name), compact `YYYYMMDD_HHMMSS`,
`IMG_` compact date-time, and `IMG-` compact date — with no separate
Screenshot pattern — validating each candidate as a real calendar date;
an invalid first dashed candidate makes that pattern fall through to the
next one, and extraction fails exactly when all four patterns yield
nothing. -/
theorem filename_extractor_pattern_chain (filename : Str) (image_data : ByteSeq) :
    (∀ d, FilenameBasedDateExtractor.try_parse_date_with_dashes filename = some d →
      FilenameBasedDateExtractor.extract_date filename image_data = .ok d)
    ∧ (FilenameBasedDateExtractor.try_parse_date_with_dashes filename = none →
       ∀ d, FilenameBasedDateExtractor.try_parse_compact_datetime_pattern filename = some d →
      FilenameBasedDateExtractor.extract_date filename image_data = .ok d)
    ∧ (FilenameBasedDateExtractor.try_parse_date_with_dashes filename = none →
       FilenameBasedDateExtractor.try_parse_compact_datetime_pattern filename = none →
       ∀ d, FilenameBasedDateExtractor.try_parse_img_underscore_pattern filename = some d →
      FilenameBasedDateExtractor.extract_date filename image_data = .ok d)
    ∧ (FilenameBasedDateExtractor.try_parse_date_with_dashes filename = none →
       FilenameBasedDateExtractor.try_parse_compact_datetime_pattern filename = none →
       FilenameBasedDateExtractor.try_parse_img_underscore_pattern filename = none →
       ∀ d, FilenameBasedDateExtractor.try_parse_img_dash_pattern filename = some d →
      FilenameBasedDateExtractor.extract_date filename image_data = .ok d)
    ∧ (FilenameBasedDateExtractor.try_parse_date_with_dashes filename = none →
       FilenameBasedDateExtractor.try_parse_compact_datetime_pattern filename = none →
       FilenameBasedDateExtractor.try_parse_img_underscore_pattern filename = none →
       FilenameBasedDateExtractor.try_parse_img_dash_pattern filename = none →
      FilenameBasedDateExtractor.extract_date filename image_data =
        .error ("Failed to extract date from filename".data))
    ∧ (∀ y m d, scan1 dashedDateAt filename = some (y, m, d) →
       NaiveDate.from_ymd_opt y m d = none →
      FilenameBasedDateExtractor.try_parse_date_with_dashes filename = none) := by
  refine ⟨fun d h1 => ?_, fun h1 d h2 => ?_, fun h1 h2 d h3 => ?_,
    fun h1 h2 h3 d h4 => ?_, fun h1 h2 h3 h4 => ?_, fun y m d hs hv => ?_⟩
  · simp [FilenameBasedDateExtractor.extract_date,
      FilenameBasedDateExtractor.try_parse_patterns, h1]
  · simp [FilenameBasedDateExtractor.extract_date,
      FilenameBasedDateExtractor.try_parse_patterns, h1, h2]
  · simp [FilenameBasedDateExtractor.extract_date,
      FilenameBasedDateExtractor.try_parse_patterns, h1, h2, h3]
  · simp [FilenameBasedDateExtractor.extract_date,
      FilenameBasedDateExtractor.try_parse_patterns, h1, h2, h3, h4]
  · simp [FilenameBasedDateExtractor.extract_date,
      FilenameBasedDateExtractor.try_parse_patterns, h1, h2, h3, h4]
  · simp [FilenameBasedDateExtractor.try_parse_date_with_dashes, hs, hv]

/-- C8 witness: `20151115_143914-ANIMATION.gif` has no dashed date, so the
compact pattern decides (2015-11-15); and on `0000-00-00.jpg` the dashed
pattern's only candidate (0000,00,00) is an impossible date, so that
pattern falls through, yielding `none`. -/
theorem filename_extractor_pattern_chain_witness :
    FilenameBasedDateExtractor.extract_date
      ("20151115_143914-ANIMATION.gif".data) [] = .ok ⟨2015, 11, 15⟩
    ∧ FilenameBasedDateExtractor.try_parse_date_with_dashes
        ("0000-00-00.jpg".data) = none :=
  ⟨(filename_extractor_pattern_chain ("20151115_143914-ANIMATION.gif".data) []).2.1
      (by decide) ⟨2015, 11, 15⟩ (by decide),
    (filename_extractor_pattern_chain ("0000-00-00.jpg".data) []).2.2.2.2.2
      0 0 0 (by decide) (by decide)⟩

/-- `parse_exif_date_string` fails only with one of its two messages
(tokenless input vs. unparseable/invalid date portion). -/
theorem parse_exif_errors (t e : Str)
    (h : ExifDateExtractor.parse_exif_date_string t = .error e) :
    e = ("Invalid EXIF date format".data) ∨
      e = ("Failed to parse date from EXIF".data) := by
  simp only [ExifDateExtractor.parse_exif_date_string] at h
  split at h
  · injection h with h'
    exact Or.inl h'.symm
  · split at h
    · exact absurd h (by simp)
    · injection h with h'
      exact Or.inr h'.symm

/-- C9: the metadata extractor returns a date exactly when the buffer parses
as an EXIF container holding a `DateTimeOriginal` field whose text (first
whitespace token, colons turned to dashes) parses as a valid calendar date;
each of the three failure conditions yields its own distinct error message
rather than a default date.  The embedding is a pure function of the buffer
(and the abstract reader), so it has no side effects. -/
theorem exif_extractor_spec (readExif : ByteSeq → Except Str Exif)
    (filename : Str) (image_data : ByteSeq) :
    (∀ d, ExifDateExtractor.extract_date readExif filename image_data = .ok d ↔
      ∃ ex t, readExif image_data = .ok ex ∧
        ex.getField Tag.DateTimeOriginal = some t ∧
        ExifDateExtractor.parse_exif_date_string t = .ok d)
    ∧ (∀ e, readExif image_data = .error e →
        ExifDateExtractor.extract_date readExif filename image_data =
          .error ("Failed to read EXIF data from image".data))
    ∧ (∀ ex, readExif image_data = .ok ex →
        ex.getField Tag.DateTimeOriginal = none →
        ExifDateExtractor.extract_date readExif filename image_data =
          .error ("No DateTimeOriginal field found in EXIF data".data))
    ∧ (∀ ex t e, readExif image_data = .ok ex →
        ex.getField Tag.DateTimeOriginal = some t →
        ExifDateExtractor.parse_exif_date_string t = .error e →
        ExifDateExtractor.extract_date readExif filename image_data = .error e ∧
          (e = ("Invalid EXIF date format".data) ∨
           e = ("Failed to parse date from EXIF".data))) := by
  refine ⟨fun d => ⟨fun h => ?_, ?_⟩, fun e h => ?_, fun ex h1 h2 => ?_,
    fun ex t e h1 h2 h3 => ?_⟩
  · cases hr : readExif image_data with
    | error e => simp [ExifDateExtractor.extract_date, hr] at h
    | ok ex =>
      cases hf : ex.getField Tag.DateTimeOriginal with
      | none => simp [ExifDateExtractor.extract_date, hr, hf] at h
      | some t =>
        simp only [ExifDateExtractor.extract_date, hr, hf] at h
        exact ⟨ex, t, rfl, hf, h⟩
  · rintro ⟨ex, t, h1, h2, h3⟩
    simp [ExifDateExtractor.extract_date, h1, h2, h3]
  · simp [ExifDateExtractor.extract_date, h]
  · simp [ExifDateExtractor.extract_date, h1, h2]
  · exact ⟨by simp [ExifDateExtractor.extract_date, h1, h2, h3],
      parse_exif_errors t e h3⟩

/-- A metadata reader whose container carries no `DateTimeOriginal` field. -/
def readExifNoField : ByteSeq → Except Str Exif := fun _ => .ok ⟨fun _ => none⟩

/-- A metadata reader whose `DateTimeOriginal` text names month 13. -/
def readExifBadDate : ByteSeq → Except Str Exif := fun _ =>
  .ok ⟨fun t => if t = Tag.DateTimeOriginal then some ("2012:13:06 10:00:00".data) else none⟩

/-- C9 witness: the three failure conditions surface their three distinct
messages, and a well-formed `2012:10:06 13:09:32` field yields 2012-10-06. -/
theorem exif_extractor_spec_witness :
    ExifDateExtractor.extract_date readExifFail ("p.jpg".data) [] =
      .error ("Failed to read EXIF data from image".data)
    ∧ ExifDateExtractor.extract_date readExifNoField ("p.jpg".data) [] =
      .error ("No DateTimeOriginal field found in EXIF data".data)
    ∧ ExifDateExtractor.extract_date readExifBadDate ("p.jpg".data) [] =
      .error ("Failed to parse date from EXIF".data)
    ∧ ExifDateExtractor.extract_date readExifFixture ("p.jpg".data) [] =
      .ok ⟨2012, 10, 6⟩ := by
  refine ⟨(exif_extractor_spec readExifFail ("p.jpg".data) []).2.1
      ("no exif".data) rfl,
    (exif_extractor_spec readExifNoField ("p.jpg".data) []).2.2.1
      ⟨fun _ => none⟩ rfl rfl,
    ((exif_extractor_spec readExifBadDate ("p.jpg".data) []).2.2.2
      ⟨fun t => if t = Tag.DateTimeOriginal then some ("2012:13:06 10:00:00".data) else none⟩
      ("2012:13:06 10:00:00".data)
      ("Failed to parse date from EXIF".data) rfl rfl rfl).1,
    ((exif_extractor_spec readExifFixture ("p.jpg".data) []).1 ⟨2012, 10, 6⟩).mpr
      ⟨⟨fun t => if t = Tag.DateTimeOriginal then some ("2012:10:06 13:09:32".data) else none⟩,
        ("2012:10:06 13:09:32".data), rfl, rfl, rfl⟩⟩

/-- `prefixMatch` accepts a pattern followed by anything. -/
theorem prefixMatch_append (p b : Str) : prefixMatch p (p ++ b) = true := by
  induction p with
  | nil => rfl
  | cons c cs ih => simp [prefixMatch, ih]

/-- A string occurring between two others is found by `containsSub`. -/
theorem containsSub_parts (p a b : Str) : containsSub p (a ++ p ++ b) = true := by
  induction a with
  | nil =>
    cases p with
    | nil => cases b <;> simp [containsSub, prefixMatch]
    | cons c cs =>
      simp only [containsSub, Bool.or_eq_true, List.nil_append]
      exact Or.inl (prefixMatch_append (c :: cs) b)
  | cons x a' ih =>
    simp only [containsSub, List.cons_append, Bool.or_eq_true]
    exact Or.inr ih

/-- Every element of a list occurs contiguously inside its `joinNl`. -/
theorem joinNl_parts : ∀ (l : List Str) (x : Str), x ∈ l →
    ∃ a b, PhotoOrganizer.joinNl l = a ++ x ++ b := by
  intro l
  induction l with
  | nil => intro x hx; exact absurd hx (List.not_mem_nil x)
  | cons y tl ih =>
    intro x hx
    cases tl with
    | nil =>
      have hxy := List.mem_singleton.mp hx
      subst hxy
      exact ⟨[], [], by simp [PhotoOrganizer.joinNl]⟩
    | cons z zs =>
      cases hx with
      | head =>
        exact ⟨[], '\n' :: PhotoOrganizer.joinNl (z :: zs),
          by simp [PhotoOrganizer.joinNl]⟩
      | tail _ h =>
        obtain ⟨a, b, hab⟩ := ih x h
        exact ⟨y ++ '\n' :: a, b, by simp [PhotoOrganizer.joinNl, hab]⟩

/-- Every orphan name is contained in the `bail!` message built around the
newline join of the orphan list. -/
theorem orphanMsg_contains (l : List Str) (x : Str) (hx : x ∈ l) :
    containsSub x (PhotoOrganizer.orphanMsg l) = true := by
  obtain ⟨a, b, hab⟩ := joinNl_parts l x hx
  unfold PhotoOrganizer.orphanMsg
  rw [hab]
  have h := containsSub_parts x
    (("Found ".data) ++ natDigits l.length ++
      (" -edited file(s) without originals:\n".data) ++ a)
    (b ++ ("\n\nTo preserve these photos, use --no-filter to organize all files.".data))
  simpa [List.append_assoc] using h

/-- The orphan list of `validate_no_orphaned_edits` is empty exactly when
every `-EDITED` entry has its stripped original in the entry list. -/
theorem orphans_nil_iff (entries : List ZipEntry) :
    ((entries.filter (fun e => containsSub ("-EDITED".data) (upperStr e.name))).filter
      (fun e => ! entries.any (fun e2 => e2.name == strip_edited e.name))).map
        (fun e => e.name) = []
    ↔ ∀ e ∈ entries, containsSub ("-EDITED".data) (upperStr e.name) = true →
        ∃ e2 ∈ entries, e2.name = strip_edited e.name := by
  rw [List.map_eq_nil_iff, List.filter_eq_nil_iff]
  constructor
  · intro h e he hedit
    have h' := h e (List.mem_filter.mpr ⟨he, hedit⟩)
    simpa [List.any_eq_true, beq_iff_eq] using h'
  · intro h e he
    obtain ⟨e2, he2, hname⟩ := h e (List.mem_filter.mp he).1 (List.mem_filter.mp he).2
    simp only [Bool.not_eq_true', Bool.not_eq_false, List.any_eq_true, beq_iff_eq]
    exact ⟨e2, he2, hname⟩

/-- An `-EDITED` entry with no stripped original in the list lands in the
orphan list. -/
theorem orphan_mem (entries : List ZipEntry) (e : ZipEntry) (he : e ∈ entries)
    (hedit : containsSub ("-EDITED".data) (upperStr e.name) = true)
    (hno : ∀ e2 ∈ entries, ¬ e2.name = strip_edited e.name) :
    e.name ∈ ((entries.filter
      (fun e => containsSub ("-EDITED".data) (upperStr e.name))).filter
        (fun e => ! entries.any (fun e2 => e2.name == strip_edited e.name))).map
          (fun e => e.name) := by
  refine List.mem_map.mpr ⟨e, List.mem_filter.mpr ⟨List.mem_filter.mpr ⟨he, hedit⟩, ?_⟩, rfl⟩
  simp only [Bool.not_eq_true', List.any_eq_false, beq_iff_eq]
  exact fun e2 h2 => hno e2 h2

/-- C10: `validate_no_orphaned_edits` succeeds exactly when every entry
whose name contains `-EDITED` (case-insensitively) still names, after the
three `-edited`-spelling removals, some entry of the list; otherwise the
error message contains the name of every orphaned edited file. -/
theorem validate_no_orphaned_edits_spec (entries : List ZipEntry) :
    (PhotoOrganizer.validate_no_orphaned_edits entries = .ok () ↔
      ∀ e ∈ entries, containsSub ("-EDITED".data) (upperStr e.name) = true →
        ∃ e2 ∈ entries, e2.name = strip_edited e.name)
    ∧ (∀ msg, PhotoOrganizer.validate_no_orphaned_edits entries = .error msg →
        ∀ e ∈ entries, containsSub ("-EDITED".data) (upperStr e.name) = true →
          (∀ e2 ∈ entries, ¬ e2.name = strip_edited e.name) →
          containsSub e.name msg = true) := by
  constructor
  · simp only [PhotoOrganizer.validate_no_orphaned_edits]
    split
    next hemp =>
      refine ⟨fun _ => ?_, fun _ => rfl⟩
      exact (orphans_nil_iff entries).mp (List.isEmpty_iff.mp hemp)
    next hemp =>
      refine ⟨fun habs => absurd habs (by simp), fun hall => ?_⟩
      exfalso
      have h := (orphans_nil_iff entries).mpr hall
      rw [h] at hemp
      exact absurd hemp (by simp)
  · intro msg hmsg e he hedit hno
    simp only [PhotoOrganizer.validate_no_orphaned_edits] at hmsg
    split at hmsg
    next hemp => exact absurd hmsg (by simp)
    next hemp =>
      injection hmsg with h'
      subst h'
      exact orphanMsg_contains _ _ (orphan_mem entries e he hedit hno)

/-- C10 witness: the singleton list with the orphan `a-edited.jpg` fails
validation with a message containing that name; adding the original
`a.jpg` makes validation pass. -/
theorem validate_no_orphaned_edits_spec_witness :
    containsSub ("a-edited.jpg".data)
      ("Found 1 -edited file(s) without originals:\na-edited.jpg\n\nTo preserve these photos, use --no-filter to organize all files.".data) = true
    ∧ PhotoOrganizer.validate_no_orphaned_edits
        [⟨"a.jpg".data, []⟩, ⟨"a-edited.jpg".data, []⟩] = .ok () := by
  constructor
  · exact (validate_no_orphaned_edits_spec [⟨"a-edited.jpg".data, []⟩]).2
      ("Found 1 -edited file(s) without originals:\na-edited.jpg\n\nTo preserve these photos, use --no-filter to organize all files.".data)
      rfl ⟨"a-edited.jpg".data, []⟩ (by decide) (by decide) (by decide)
  · exact (validate_no_orphaned_edits_spec
      [⟨"a.jpg".data, []⟩, ⟨"a-edited.jpg".data, []⟩]).1.mpr (by decide)
